import Mathlib

/-!
Verification development for the mail-relay DNS reconciliation core.

The definitions below are a shallow embedding of the Python sources:
- scripts/dns/base.py        (ownership-tracked provider operations)
- scripts/dns/cloudflare.py  (paginated record listing)
- scripts/dns_manager.py     (desired-state builder and reconciler)
- scripts/dns_watcher.py     (drift watch loop, one polling tick)

Python string operations are modelled character-by-character over
String.data so that every definition evaluates inside the kernel.
The in-memory Zone type plays the role of the record store behind a
provider; the high-level operations additionally return the list of
mutating provider calls they issue, so that frame conditions
("no create/update/delete reaches the provider") are expressible.
-/

namespace MailRelay

/-! ## Character-level models of the Python string operations used -/

/-- Model of Python str.split(sep) for a single-character separator. -/
def split_on_char (sep : Char) : List Char → List (List Char)
  | [] => [[]]
  | c :: rest =>
    let r := split_on_char sep rest
    if c = sep then [] :: r
    else
      match r with
      | [] => [[c]]
      | h :: t => (c :: h) :: t

/-- Model of Python s.split(sep, 1) when sep occurs in s: the part before
the first separator and the part after it (which may contain further
separators). When sep does not occur, the second component is empty;
callers guard with a containment check, as the source does. -/
def split_first (sep : Char) : List Char → List Char × List Char
  | [] => ([], [])
  | c :: cs =>
    if c = sep then ([], cs)
    else
      let p := split_first sep cs
      (c :: p.1, p.2)

/-- Model of Python str.join. -/
def py_join (sep : String) : List String → String
  | [] => ""
  | [x] => x
  | x :: xs => x ++ sep ++ py_join sep xs

/-- Python compares strings lexicographically by code point; this is that
comparison on the underlying character lists. -/
def char_list_le : List Char → List Char → Bool
  | [], _ => true
  | _ :: _, [] => false
  | a :: as, b :: bs =>
    if a.toNat < b.toNat then true
    else if b.toNat < a.toNat then false
    else char_list_le as bs

/-- Python string comparison (used by sorted). -/
def py_str_le (a b : String) : Prop := char_list_le a.data b.data = true

instance : DecidableRel py_str_le := fun a b => Bool.decEq (char_list_le a.data b.data) true

/-- Model of Python sorted on a list of strings. sorted is a stable sort,
but for a total antisymmetric order the sorted result is unique, so any
sorting algorithm is a faithful model. -/
def py_sorted (l : List String) : List String := List.insertionSort py_str_le l

/-- Python truthiness of an optional string: None and the empty string
are falsy. -/
def py_truthy : Option String → Bool
  | none => false
  | some s => !(decide (s = ""))

/-- Membership of a string in a list, used to model Python set equality. -/
def mem_str (x : String) (l : List String) : Bool := l.any (fun y => decide (y = x))

/-- Model of Python set(a) == set(b) for lists of strings. -/
def set_eq (a b : List String) : Bool :=
  a.all (fun x => mem_str x b) && b.all (fun x => mem_str x a)

/-! ## Record model (scripts/dns/base.py) -/

/-- Supported DNS record types (enum RecordType). -/
inductive RecordType where
  | A
  | AAAA
  | MX
  | TXT
  | CNAME
deriving DecidableEq, Repr

/-- RecordType.value: the string value of the enum member. -/
def RecordType.value : RecordType → String
  | .A => "A"
  | .AAAA => "AAAA"
  | .MX => "MX"
  | .TXT => "TXT"
  | .CNAME => "CNAME"

/-- Model of the Python RecordType(s) constructor, which raises ValueError
on an unknown value; here it returns none in that case. -/
def RecordType.of_string (s : String) : Option RecordType :=
  if s = "A" then some .A
  else if s = "AAAA" then some .AAAA
  else if s = "MX" then some .MX
  else if s = "TXT" then some .TXT
  else if s = "CNAME" then some .CNAME
  else none

/-- A DNS record (dataclass DNSRecord). record_id is the provider-assigned
identifier, modelled as a natural number. -/
structure DNSRecord where
  name : String
  type : RecordType
  content : String
  ttl : Nat := 300
  priority : Option Nat := none
  proxied : Bool := false
  record_id : Option Nat := none
deriving DecidableEq, Repr

/-- Model of Python str.rstrip(".") as applied by DNSRecord.__post_init__. -/
def rstrip_dots (s : String) : String :=
  String.mk ((s.data.reverse.dropWhile (fun c => c = '.')).reverse)

/-- Constructing a DNSRecord through the dataclass applies __post_init__,
which strips trailing dots from the name. -/
def mk_dns_record (name : String) (type : RecordType) (content : String)
    (ttl : Nat) (priority : Option Nat) : DNSRecord :=
  { name := rstrip_dots name, type := type, content := content,
    ttl := ttl, priority := priority }

/-- DNSRecord.ownership_record_name: the TXT name tracking ownership of
this record. -/
def DNSRecord.ownership_record_name (r : DNSRecord) : String :=
  "_mail-relay-owner." ++ r.name

/-- Base configuration for DNS providers (DNSProviderConfig). The unused
txt marker field of the source is omitted; owner_id, default_ttl and
dry_run are the fields the code reads. -/
structure DNSProviderConfig where
  owner_id : String
  default_ttl : Nat := 300
  dry_run : Bool := false
deriving DecidableEq, Repr

/-! ## Ownership marker parsing (DNSProvider._parse_ownership and friends) -/

/-- DNSProvider._ownership_content: content of an ownership marker. -/
def ownership_content (cfg : DNSProviderConfig) (record_type : RecordType) : String :=
  "heritage=mail-relay,owner=" ++ cfg.owner_id ++ ",record-type=" ++ record_type.value

/-- Key/value pairs extracted from a marker: split on commas, keep parts
containing an equals sign, split each at the first equals sign.
The Python source builds a dict this way; the pair list keeps every
binding in order, and lookups take the last one, matching dict overwrite
semantics. -/
def parse_pairs (content : String) : List (String × String) :=
  (split_on_char ',' content.data).filterMap (fun part =>
    if part.contains '=' then
      let p := split_first '=' part
      some (String.mk p.1, String.mk p.2)
    else none)

/-- Lookup in the pair list with Python dict semantics: the last binding
of a key wins. -/
def dict_get (ps : List (String × String)) (k : String) : Option String :=
  (ps.reverse.find? (fun p => decide (p.1 = k))).map Prod.snd

/-- DNSProvider._parse_ownership: returns the parsed pairs when the
heritage key equals mail-relay, otherwise none. -/
def parse_ownership (content : String) : Option (List (String × String)) :=
  let parts := parse_pairs content
  if dict_get parts "heritage" = some "mail-relay" then some parts else none

/-- DNSProvider._is_owned_by_us. -/
def is_owned_by_us (cfg : DNSProviderConfig) (ownership_content : String) : Bool :=
  match parse_ownership ownership_content with
  | some parsed => decide (dict_get parsed "owner" = some cfg.owner_id)
  | none => false

/-! ## In-memory provider store

The abstract provider primitives (list/create/update/delete) are modelled
over an in-memory Zone; create assigns fresh record ids and primitives
always succeed, which is the provider behaviour the high-level claims
assume. The high-level operations return the mutating calls they issue so
that frame conditions are visible. -/

/-- The record store of one zone. -/
structure Zone where
  records : List DNSRecord := []
  next_id : Nat := 0
deriving DecidableEq, Repr

/-- Filter predicate of list_records: optional type and name filters. -/
def record_matches (r : DNSRecord) (rt : Option RecordType) (nm : Option String) : Bool :=
  (match rt with
   | none => true
   | some t => decide (r.type = t)) &&
  (match nm with
   | none => true
   | some n => decide (r.name = n))

/-- Provider list_records: list the records of the zone, filtered by
optional record type and name. -/
def list_records (z : Zone) (rt : Option RecordType) (nm : Option String) : List DNSRecord :=
  z.records.filter (fun r => record_matches r rt nm)

/-- Provider create_record: appends the record with a fresh id and returns
the stored record. -/
def create_record (z : Zone) (r : DNSRecord) : Zone × DNSRecord :=
  let stored := { r with record_id := some z.next_id }
  ({ records := z.records ++ [stored], next_id := z.next_id + 1 }, stored)

/-- Provider update_record: replaces the record carrying the same id. -/
def update_record (z : Zone) (r : DNSRecord) : Zone :=
  { z with records := z.records.map (fun e => if e.record_id = r.record_id then r else e) }

/-- Provider delete_record: removes the record carrying the id. -/
def delete_record (z : Zone) (rid : Option Nat) : Zone :=
  { z with records := z.records.filter (fun e => !(decide (e.record_id = rid))) }

/-- A mutating provider call, as issued by the high-level operations.
Read-only list_records calls are not recorded. -/
inductive MutCall where
  | create (r : DNSRecord)
  | update (r : DNSRecord)
  | delete (rid : Option Nat)
deriving DecidableEq, Repr

/-! ## High-level operations with ownership tracking (DNSProvider) -/

/-- DNSProvider._check_ownership: do we own the record, judged by the TXT
records at its ownership name? -/
def check_ownership (cfg : DNSProviderConfig) (z : Zone) (record : DNSRecord) : Bool :=
  (list_records z (some RecordType.TXT) (some record.ownership_record_name)).any
    (fun txt_record => is_owned_by_us cfg txt_record.content)

/-- DNSProvider._set_ownership: create the ownership TXT record for a
managed record, or update it if present with different content. -/
def set_ownership (cfg : DNSProviderConfig) (z : Zone) (record : DNSRecord) :
    Bool × Zone × List MutCall :=
  let ownership_record : DNSRecord :=
    { name := record.ownership_record_name, type := RecordType.TXT,
      content := ownership_content cfg record.type, ttl := record.ttl }
  match list_records z (some RecordType.TXT) (some record.ownership_record_name) with
  | existing0 :: _ =>
    if existing0.content ≠ ownership_record.content then
      let o := { ownership_record with record_id := existing0.record_id }
      (true, update_record z o, [MutCall.update o])
    else (true, z, [])
  | [] =>
    let p := create_record z ownership_record
    (true, p.1, [MutCall.create p.2])

/-- DNSProvider.ensure_record: create or update a record, but only touch
an existing record when its ownership marker names this instance. -/
def ensure_record (cfg : DNSProviderConfig) (z : Zone) (record : DNSRecord) :
    Bool × Zone × List MutCall :=
  match list_records z (some record.type) (some record.name) with
  | existing_record :: _ =>
    if !(check_ownership cfg z record) then (false, z, [])
    else if existing_record.content = record.content then (true, z, [])
    else
      let record1 := { record with record_id := existing_record.record_id }
      if cfg.dry_run then (true, z, [])
      else (true, update_record z record1, [MutCall.update record1])
  | [] =>
    if cfg.dry_run then (true, z, [])
    else
      let p := create_record z record
      let s := set_ownership cfg p.1 p.2
      (s.1, s.2.1, MutCall.create p.2 :: s.2.2)

/-- DNSProvider._delete_ownership: delete the marker whose record-type
matches; absent markers are a success. -/
def delete_ownership (cfg : DNSProviderConfig) (z : Zone) (name : String)
    (record_type : RecordType) : Bool × Zone × List MutCall :=
  let ownership_name := "_mail-relay-owner." ++ name
  match (list_records z (some RecordType.TXT) (some ownership_name)).find?
      (fun txt_record =>
        match parse_ownership txt_record.content with
        | some parsed => decide (dict_get parsed "record-type" = some record_type.value)
        | none => false) with
  | some txt_record => (true, delete_record z txt_record.record_id, [MutCall.delete txt_record.record_id])
  | none => (true, z, [])

/-- DNSProvider.delete_owned_record: delete a record only when its
ownership marker names this instance. -/
def delete_owned_record (cfg : DNSProviderConfig) (z : Zone) (name : String)
    (record_type : RecordType) : Bool × Zone × List MutCall :=
  match list_records z (some record_type) (some name) with
  | [] => (true, z, [])
  | record :: _ =>
    if !(check_ownership cfg z { name := name, type := record_type, content := "" }) then
      (false, z, [])
    else if cfg.dry_run then (true, z, [])
    else
      let z1 := delete_record z record.record_id
      let d := delete_ownership cfg z1 name record_type
      (d.1, d.2.1, MutCall.delete record.record_id :: d.2.2)

/-- DNSProvider.list_owned_records, inner loop over the TXT records of the
zone. The Python RecordType(...) constructor raises on an unknown
record-type value; that exception is modelled by Except.error. The
replace of the marker name head is performed under the startswith guard,
hence modelled as dropping the marker name head. -/
def list_owned_records_go (cfg : DNSProviderConfig) (z : Zone) :
    List DNSRecord → Except String (List DNSRecord)
  | [] => Except.ok []
  | txt_record :: rest =>
    if !(List.isPrefixOf "_mail-relay-owner.".data txt_record.name.data) then
      list_owned_records_go cfg z rest
    else
      match parse_ownership txt_record.content with
      | none => list_owned_records_go cfg z rest
      | some parsed =>
        if !(decide (dict_get parsed "owner" = some cfg.owner_id)) then
          list_owned_records_go cfg z rest
        else
          let original_name := String.mk (txt_record.name.data.drop "_mail-relay-owner.".data.length)
          match RecordType.of_string ((dict_get parsed "record-type").getD "A") with
          | none => Except.error "invalid record-type in ownership marker"
          | some record_type =>
            match list_owned_records_go cfg z rest with
            | Except.error e => Except.error e
            | Except.ok others =>
              Except.ok (list_records z (some record_type) (some original_name) ++ others)

/-- DNSProvider.list_owned_records: all records of the zone reached
through an ownership marker naming this instance. -/
def list_owned_records (cfg : DNSProviderConfig) (z : Zone) : Except String (List DNSRecord) :=
  list_owned_records_go cfg z (list_records z (some RecordType.TXT) none)

/-! ## Desired-state builder and reconciler (scripts/dns_manager.py) -/

/-- One entry of MailConfig.domains: the source stores dicts with keys
"name" and "dkimSelector"; the selector is looked up with default "mail". -/
structure DomainCfg where
  name : String
  dkimSelector : Option String := none
deriving DecidableEq, Repr

/-- Mail relay configuration (dataclass MailConfig). -/
structure MailConfig where
  hostname : String
  domains : List DomainCfg
  create_a : Bool := true
  create_mx : Bool := true
  create_spf : Bool := true
  create_dkim : Bool := true
  create_dmarc : Bool := true
  spf_policy : String := "~all"
  dmarc_policy : String := "none"
  dmarc_pct : String := ""
  dmarc_rua : String := ""
  ttl : Nat := 300
deriving Repr

/-- PTR record configuration (dataclass PTRConfig). -/
structure PTRConfig where
  enabled : Bool := false
  provider : String := ""
  hostname : String := ""
deriving DecidableEq, Repr

/-- DNSManager._extract_domain: base domain of an FQDN, the last two
dot-separated labels. -/
def extract_domain (fqdn : String) : String :=
  let parts := split_on_char '.' fqdn.data
  if parts.length ≥ 2 then
    String.mk (List.intercalate ['.'] (parts.drop (parts.length - 2)))
  else fqdn

/-- DNSManager.build_spf_record. -/
def build_spf_record (cfg : MailConfig) (ips : List String) : String :=
  let ip_parts := py_join " " ((py_sorted ips).map (fun ip => "ip4:" ++ ip))
  "v=spf1 " ++ ip_parts ++ " " ++ cfg.spf_policy

/-- DNSManager.build_dmarc_record. -/
def build_dmarc_record (cfg : MailConfig) (domain : String) : String :=
  let rua := if cfg.dmarc_rua = "" then "postmaster@" ++ domain else cfg.dmarc_rua
  let pct := if cfg.dmarc_pct = "" then "" else "; pct=" ++ cfg.dmarc_pct
  "v=DMARC1; p=" ++ cfg.dmarc_policy ++ pct ++ "; rua=mailto:" ++ rua

/-- The environment DNSManager.init_or_update runs in: detection results,
zone resolution, the DKIM secret lookup, and the outcomes of the
provider-level ensure/PTR calls. The claims about init_or_update concern
which records it attempts and how per-record outcomes aggregate, so the
provider interactions appear as outcome oracles. -/
structure ManagerEnv where
  incoming_ip : Option String
  outbound_ip : Option String
  all_ips : List String
  get_zone_id : String → Option String
  ensure_record_result : String → DNSRecord → Bool
  get_dkim_record : String → Option String
  ptr_available : Bool
  set_ptr_result : String → String → Bool

/-- One per-record attempt made by init_or_update: a label naming the
record (or a failed zone lookup) and the boolean outcome folded into the
overall success. -/
structure Attempt where
  label : String
  ok : Bool
deriving DecidableEq, Repr

/-- DNSManager._ensure_a_record. -/
def ensure_a_record (cfg : MailConfig) (env : ManagerEnv) (ip : String) : Bool :=
  let domain := extract_domain cfg.hostname
  match env.get_zone_id domain with
  | none => false
  | some zone_id =>
    env.ensure_record_result zone_id (mk_dns_record cfg.hostname RecordType.A ip cfg.ttl none)

/-- DNSManager._ensure_mx_record. -/
def ensure_mx_record (cfg : MailConfig) (env : ManagerEnv) (zone_id domain : String) : Bool :=
  env.ensure_record_result zone_id
    (mk_dns_record domain RecordType.MX cfg.hostname cfg.ttl (some 10))

/-- DNSManager._ensure_spf_record. -/
def ensure_spf_record (cfg : MailConfig) (env : ManagerEnv) (zone_id domain : String)
    (ips : List String) : Bool :=
  env.ensure_record_result zone_id
    (mk_dns_record domain RecordType.TXT (build_spf_record cfg ips) cfg.ttl none)

/-- DNSManager._ensure_dkim_record: skipped (success) when the DKIM secret
is absent. -/
def ensure_dkim_record (cfg : MailConfig) (env : ManagerEnv) (zone_id domain selector : String) : Bool :=
  match env.get_dkim_record domain with
  | none => true
  | some dkim_content =>
    env.ensure_record_result zone_id
      (mk_dns_record (selector ++ "._domainkey." ++ domain) RecordType.TXT dkim_content cfg.ttl none)

/-- DNSManager._ensure_dmarc_record. -/
def ensure_dmarc_record (cfg : MailConfig) (env : ManagerEnv) (zone_id domain : String) : Bool :=
  env.ensure_record_result zone_id
    (mk_dns_record ("_dmarc." ++ domain) RecordType.TXT (build_dmarc_record cfg domain) cfg.ttl none)

/-- DNSManager._ensure_ptr_record: a no-op success when PTR is disabled or
the PTR provider is not configured. -/
def ensure_ptr_record (cfg : MailConfig) (ptrcfg : PTRConfig) (env : ManagerEnv) (ip : String) : Bool :=
  if !ptrcfg.enabled then true
  else if !env.ptr_available then true
  else
    let hostname := if ptrcfg.hostname = "" then cfg.hostname else ptrcfg.hostname
    env.set_ptr_result ip hostname

/-- The per-domain body of the init_or_update loop: zone lookup, then the
enabled MX/SPF/DKIM/DMARC records, accumulating success and the attempt
trace. A failed zone lookup records a failed attempt and moves on to the
next domain, as the source's continue does. -/
def domain_step (cfg : MailConfig) (env : ManagerEnv)
    (acc : Bool × List Attempt) (dcfg : DomainCfg) : Bool × List Attempt :=
  let domain := dcfg.name
  let selector := dcfg.dkimSelector.getD "mail"
  match env.get_zone_id domain with
  | none => (false, acc.2 ++ [{ label := "zone:" ++ domain, ok := false }])
  | some zone_id =>
    let acc1 :=
      if cfg.create_mx then
        let r := ensure_mx_record cfg env zone_id domain
        (acc.1 && r, acc.2 ++ [{ label := "MX:" ++ domain, ok := r }])
      else acc
    let acc2 :=
      if cfg.create_spf then
        let r := ensure_spf_record cfg env zone_id domain env.all_ips
        (acc1.1 && r, acc1.2 ++ [{ label := "SPF:" ++ domain, ok := r }])
      else acc1
    let acc3 :=
      if cfg.create_dkim then
        let r := ensure_dkim_record cfg env zone_id domain selector
        (acc2.1 && r, acc2.2 ++ [{ label := "DKIM:" ++ domain, ok := r }])
      else acc2
    if cfg.create_dmarc then
      let r := ensure_dmarc_record cfg env zone_id domain
      (acc3.1 && r, acc3.2 ++ [{ label := "DMARC:" ++ domain, ok := r }])
    else acc3

/-- DNSManager.init_or_update: detect IPs, then apply every applicable
record, accumulating a boolean conjunction of outcomes. Returns the
overall success together with the attempt trace. -/
def init_or_update (cfg : MailConfig) (ptrcfg : PTRConfig) (env : ManagerEnv) :
    Bool × List Attempt :=
  if !(py_truthy env.incoming_ip) then (false, [])
  else
    let incoming := env.incoming_ip.getD ""
    let acc0 : Bool × List Attempt := (true, [])
    let acc1 :=
      if cfg.create_a then
        let r := ensure_a_record cfg env incoming
        (acc0.1 && r, acc0.2 ++ [{ label := "A:" ++ cfg.hostname, ok := r }])
      else acc0
    let acc2 := cfg.domains.foldl (domain_step cfg env) acc1
    if ptrcfg.enabled then
      let ptr_ip := if py_truthy env.outbound_ip then env.outbound_ip.getD "" else incoming
      if ptr_ip ≠ "" then
        let r := ensure_ptr_record cfg ptrcfg env ptr_ip
        (acc2.1 && r, acc2.2 ++ [{ label := "PTR:" ++ ptr_ip, ok := r }])
      else acc2
    else acc2

/-- The record labels one domain contributes to an init_or_update run,
from the configuration and environment alone. -/
def planned_domain_labels (cfg : MailConfig) (env : ManagerEnv) (dcfg : DomainCfg) : List String :=
  match env.get_zone_id dcfg.name with
  | none => ["zone:" ++ dcfg.name]
  | some _ =>
    (if cfg.create_mx then ["MX:" ++ dcfg.name] else []) ++
    (if cfg.create_spf then ["SPF:" ++ dcfg.name] else []) ++
    (if cfg.create_dkim then ["DKIM:" ++ dcfg.name] else []) ++
    (if cfg.create_dmarc then ["DMARC:" ++ dcfg.name] else [])

/-- The record labels init_or_update attempts, computed from the
configuration and environment alone — independent of the outcomes of the
provider calls. -/
def planned_labels (cfg : MailConfig) (ptrcfg : PTRConfig) (env : ManagerEnv) : List String :=
  if !(py_truthy env.incoming_ip) then []
  else
    let incoming := env.incoming_ip.getD ""
    let a_part := if cfg.create_a then ["A:" ++ cfg.hostname] else []
    let domain_part := cfg.domains.flatMap (planned_domain_labels cfg env)
    let ptr_part :=
      if ptrcfg.enabled then
        let ptr_ip := if py_truthy env.outbound_ip then env.outbound_ip.getD "" else incoming
        if ptr_ip ≠ "" then ["PTR:" ++ ptr_ip] else []
      else []
    a_part ++ domain_part ++ ptr_part

/-! ## Drift watch loop, one polling tick (scripts/dns_watcher.py) -/

/-- Saved state for tracking changes (dataclass SavedState). -/
structure SavedState where
  incoming_ip : String := ""
  outbound_ip : String := ""
  all_ips : List String := []
deriving DecidableEq, Repr

/-- Inputs of one tick of the monitoring loop: the freshly detected IPs
and the outcomes the manager calls would produce this tick. -/
structure TickInput where
  current_incoming : Option String
  current_outbound : Option String
  current_all_ips : List String
  check_result : Bool × List String
  update_result : Bool

/-- Observable effects of one tick of the monitoring loop. -/
structure TickOutput where
  skipped : Bool
  needs_update : Bool
  check_invoked : Bool
  update_invoked : Bool
  persisted : Option SavedState
  kill_marker : Bool
deriving DecidableEq, Repr

/-- One iteration of the main monitoring loop of dns_watcher.main: detect
IPs, decide whether an update is needed (incoming changed, outbound
changed and non-empty, set of all IPs changed, else the read-only record
check), and reconcile: on success persist the new state and create the
kill marker exactly when the incoming IP changed; on failure persist
nothing. -/
def watcher_tick (saved : SavedState) (inp : TickInput) : TickOutput :=
  if !(py_truthy inp.current_incoming) then
    { skipped := true, needs_update := false, check_invoked := false,
      update_invoked := false, persisted := none, kill_marker := false }
  else
    let current_incoming := inp.current_incoming.getD ""
    let cond_incoming := !(decide (current_incoming = saved.incoming_ip))
    let cond_outbound :=
      py_truthy inp.current_outbound &&
        !(decide (inp.current_outbound.getD "" = saved.outbound_ip))
    let saved_all_ips := if saved.all_ips.isEmpty then [saved.incoming_ip] else saved.all_ips
    let cond_all_ips := !(set_eq inp.current_all_ips saved_all_ips)
    let needs0 := cond_incoming || cond_outbound || cond_all_ips
    let needs_update := needs0 || (!needs0 && !(inp.check_result.1))
    if needs_update then
      if inp.update_result then
        { skipped := false, needs_update := needs_update, check_invoked := !needs0,
          update_invoked := true,
          persisted := some { incoming_ip := current_incoming,
                              outbound_ip := inp.current_outbound.getD "",
                              all_ips := inp.current_all_ips },
          kill_marker := !(decide (current_incoming = saved.incoming_ip)) }
      else
        { skipped := false, needs_update := needs_update, check_invoked := !needs0,
          update_invoked := true, persisted := none, kill_marker := false }
    else
      { skipped := false, needs_update := false, check_invoked := !needs0,
        update_invoked := false, persisted := none, kill_marker := false }

/-! ## Cloudflare paginated listing (scripts/cloudflare.py list_records) -/

/-- One parsed response of the paginated dns_records listing: the records
of the page and the total_pages field of result_info. -/
structure CFResponse where
  result : List DNSRecord
  total_pages : Nat
deriving Repr

/-- The while-loop of CloudflareProvider.list_records. The api argument
models _api_request for one page: Except.error models a raised
CloudflareAPIError, on which the loop breaks with the records accumulated
so far. The fuel argument bounds the iterations of the model; the Python
loop runs as long as responses keep raising total_pages, so any execution
that terminates is reproduced by a sufficiently large fuel. -/
def cf_list_records_go (api : Nat → Except Unit CFResponse) :
    Nat → Nat → List DNSRecord → List DNSRecord
  | 0, _, acc => acc
  | fuel + 1, page, acc =>
    match api page with
    | Except.error _ => acc
    | Except.ok data =>
      let acc1 := acc ++ data.result
      if page ≥ data.total_pages then acc1
      else cf_list_records_go api fuel (page + 1) acc1

/-- CloudflareProvider.list_records: paginate from page 1. -/
def cf_list_records (api : Nat → Except Unit CFResponse) (fuel : Nat) : List DNSRecord :=
  cf_list_records_go api fuel 1 []

/-- A well-behaved paginated API backed by a fixed list of pages: page p
(1-based) answers with the records of page p and the true page count;
out-of-range requests fail. -/
def pages_api (pages : List (List DNSRecord)) : Nat → Except Unit CFResponse := fun p =>
  if 1 ≤ p ∧ p ≤ pages.length then
    Except.ok { result := pages.getD (p - 1) [], total_pages := pages.length }
  else Except.error ()

/-- A paginated API that fails from page k onward: pages before k answer
normally (reporting the full page count), later requests raise. -/
def fail_api (pages : List (List DNSRecord)) (k : Nat) : Nat → Except Unit CFResponse := fun p =>
  if p < k ∧ 1 ≤ p ∧ p ≤ pages.length then
    Except.ok { result := pages.getD (p - 1) [], total_pages := pages.length }
  else Except.error ()

/-! ## Order properties of the Python string comparison -/

theorem char_list_le_cons_lt {x y : Char} (xs ys : List Char) (h : x.toNat < y.toNat) :
    char_list_le (x :: xs) (y :: ys) = true := by
  simp [char_list_le, h]

theorem char_list_le_cons_gt {x y : Char} (xs ys : List Char) (h : y.toNat < x.toNat) :
    char_list_le (x :: xs) (y :: ys) = false := by
  simp [char_list_le, Nat.lt_asymm h, h]

theorem char_list_le_cons_eq {x y : Char} (xs ys : List Char) (h : x.toNat = y.toNat) :
    char_list_le (x :: xs) (y :: ys) = char_list_le xs ys := by
  simp [char_list_le, h, Nat.lt_irrefl]

theorem char_list_le_total : ∀ a b : List Char, char_list_le a b = true ∨ char_list_le b a = true := by
  intro a
  induction a with
  | nil => intro b; left; simp [char_list_le]
  | cons x xs ih =>
    intro b
    cases b with
    | nil => right; simp [char_list_le]
    | cons y ys =>
      rcases Nat.lt_trichotomy x.toNat y.toNat with h | h | h
      · left; exact char_list_le_cons_lt xs ys h
      · rcases ih ys with h2 | h2
        · left; rw [char_list_le_cons_eq xs ys h]; exact h2
        · right; rw [char_list_le_cons_eq ys xs h.symm]; exact h2
      · right; exact char_list_le_cons_lt ys xs h

theorem char_list_le_trans : ∀ a b c : List Char,
    char_list_le a b = true → char_list_le b c = true → char_list_le a c = true := by
  intro a
  induction a with
  | nil => intro b c _ _; simp [char_list_le]
  | cons x xs ih =>
    intro b c hab hbc
    cases b with
    | nil => simp [char_list_le] at hab
    | cons y ys =>
      cases c with
      | nil => simp [char_list_le] at hbc
      | cons z zs =>
        rcases Nat.lt_trichotomy x.toNat y.toNat with h1 | h1 | h1
        · rcases Nat.lt_trichotomy y.toNat z.toNat with h2 | h2 | h2
          · exact char_list_le_cons_lt xs zs (Nat.lt_trans h1 h2)
          · exact char_list_le_cons_lt xs zs (by omega)
          · rw [char_list_le_cons_gt ys zs h2] at hbc; cases hbc
        · rcases Nat.lt_trichotomy y.toNat z.toNat with h2 | h2 | h2
          · exact char_list_le_cons_lt xs zs (by omega)
          · rw [char_list_le_cons_eq xs zs (by omega)]
            rw [char_list_le_cons_eq xs ys h1] at hab
            rw [char_list_le_cons_eq ys zs h2] at hbc
            exact ih ys zs hab hbc
          · rw [char_list_le_cons_gt ys zs h2] at hbc; cases hbc
        · rw [char_list_le_cons_gt xs ys h1] at hab; cases hab

theorem char_list_le_antisymm : ∀ a b : List Char,
    char_list_le a b = true → char_list_le b a = true → a = b := by
  intro a
  induction a with
  | nil =>
    intro b _ hba
    cases b with
    | nil => rfl
    | cons y ys => simp [char_list_le] at hba
  | cons x xs ih =>
    intro b hab hba
    cases b with
    | nil => simp [char_list_le] at hab
    | cons y ys =>
      rcases Nat.lt_trichotomy x.toNat y.toNat with h | h | h
      · rw [char_list_le_cons_gt ys xs h] at hba; cases hba
      · have hxy : x = y := Char.ext (UInt32.ext h)
        rw [char_list_le_cons_eq xs ys h] at hab
        rw [char_list_le_cons_eq ys xs h.symm] at hba
        rw [hxy, ih ys hab hba]
      · rw [char_list_le_cons_gt xs ys h] at hab; cases hab

instance : IsTotal String py_str_le := ⟨fun a b => char_list_le_total a.data b.data⟩

instance : IsTrans String py_str_le := ⟨fun a b c => char_list_le_trans a.data b.data c.data⟩

instance : IsAntisymm String py_str_le :=
  ⟨fun a b hab hba => String.ext (char_list_le_antisymm a.data b.data hab hba)⟩

theorem py_sorted_perm (l : List String) : (py_sorted l).Perm l :=
  List.perm_insertionSort py_str_le l

theorem py_sorted_sorted (l : List String) : List.Sorted py_str_le (py_sorted l) :=
  List.sorted_insertionSort py_str_le l

theorem py_sorted_congr_perm {l1 l2 : List String} (h : l1.Perm l2) :
    py_sorted l1 = py_sorted l2 :=
  List.eq_of_perm_of_sorted (((py_sorted_perm l1).trans h).trans (py_sorted_perm l2).symm)
    (py_sorted_sorted l1) (py_sorted_sorted l2)

/-! ## Claim C5: SPF record determinism -/

/-- C5: build_spf_record is a deterministic function of the multiset of
input IPs: the output is the fixed header, then ip4: terms for the IPs in
lexicographically sorted order joined by single spaces, then a space and
the configured policy; hence permutations of the input list produce
byte-identical output. -/
theorem C5_build_spf_record_deterministic (cfg : MailConfig) (ips1 ips2 : List String)
    (h : ips1.Perm ips2) :
    build_spf_record cfg ips1 = build_spf_record cfg ips2 ∧
    (∃ sorted_ips : List String, sorted_ips.Perm ips1 ∧ List.Sorted py_str_le sorted_ips ∧
      build_spf_record cfg ips1 =
        "v=spf1 " ++ py_join " " (sorted_ips.map (fun ip => "ip4:" ++ ip)) ++ " " ++
          cfg.spf_policy) := by
  constructor
  · unfold build_spf_record
    rw [py_sorted_congr_perm h]
  · exact ⟨py_sorted ips1, py_sorted_perm ips1, py_sorted_sorted ips1, rfl⟩

/-- Witness for C5 at the concrete IP lists of the specification. -/
theorem C5_build_spf_record_deterministic_witness :
    (["10.0.0.2", "10.0.0.1"] : List String).Perm ["10.0.0.1", "10.0.0.2"] ∧
    build_spf_record { hostname := "mail.ex.com", domains := [] } ["10.0.0.2", "10.0.0.1"] =
      build_spf_record { hostname := "mail.ex.com", domains := [] } ["10.0.0.1", "10.0.0.2"] ∧
    build_spf_record { hostname := "mail.ex.com", domains := [] } ["10.0.0.2", "10.0.0.1"] =
      "v=spf1 ip4:10.0.0.1 ip4:10.0.0.2 ~all" :=
  ⟨by decide,
   (C5_build_spf_record_deterministic { hostname := "mail.ex.com", domains := [] }
     ["10.0.0.2", "10.0.0.1"] ["10.0.0.1", "10.0.0.2"] (by decide)).1,
   by decide⟩

/-! ## Claim C1: ownership exclusivity of ensure_record -/

/-- C1: when a record matching the desired type and name exists but no
TXT record at its ownership name marks this instance as owner,
ensure_record returns false, issues no mutating provider call, and leaves
the zone unchanged — even when the existing content differs from the
desired content. -/
theorem C1_ensure_record_foreign_skip (cfg : DNSProviderConfig) (z : Zone) (record : DNSRecord)
    (hex : list_records z (some record.type) (some record.name) ≠ [])
    (hown : ∀ t ∈ list_records z (some RecordType.TXT) (some record.ownership_record_name),
      is_owned_by_us cfg t.content = false) :
    ensure_record cfg z record = (false, z, []) := by
  have hco : check_ownership cfg z record = false := by
    unfold check_ownership
    rw [List.any_eq_false]
    intro t ht
    rw [hown t ht]
    exact Bool.false_ne_true
  unfold ensure_record
  cases hm : list_records z (some record.type) (some record.name) with
  | nil => exact absurd hm hex
  | cons e rest => simp [hco]

/-- Witness for C1: a zone holding a foreign A record (different content,
no ownership marker) is left untouched. -/
theorem C1_ensure_record_foreign_skip_witness :
    (list_records
        { records := [{ name := "mail.ex.com", type := RecordType.A, content := "9.9.9.9",
                        record_id := some 7 }], next_id := 8 }
        (some RecordType.A) (some "mail.ex.com") ≠ []) ∧
    ensure_record { owner_id := "default-mail-relay" }
        { records := [{ name := "mail.ex.com", type := RecordType.A, content := "9.9.9.9",
                        record_id := some 7 }], next_id := 8 }
        { name := "mail.ex.com", type := RecordType.A, content := "1.2.3.4" } =
      (false,
        { records := [{ name := "mail.ex.com", type := RecordType.A, content := "9.9.9.9",
                        record_id := some 7 }], next_id := 8 },
        []) :=
  ⟨by decide,
   C1_ensure_record_foreign_skip { owner_id := "default-mail-relay" }
     { records := [{ name := "mail.ex.com", type := RecordType.A, content := "9.9.9.9",
                     record_id := some 7 }], next_id := 8 }
     { name := "mail.ex.com", type := RecordType.A, content := "1.2.3.4" }
     (by decide) (by decide)⟩

/-! ## Claim C3: dry-run purity -/

theorem ensure_record_dry_run (cfg : DNSProviderConfig) (z : Zone) (record : DNSRecord)
    (hdry : cfg.dry_run = true) :
    ensure_record cfg z record =
      ((list_records z (some record.type) (some record.name)).isEmpty ||
        check_ownership cfg z record, z, []) := by
  unfold ensure_record
  cases hm : list_records z (some record.type) (some record.name) with
  | nil => simp [hdry]
  | cons e rest =>
    cases hco : check_ownership cfg z record with
    | false => simp [hco]
    | true =>
      by_cases hc : e.content = record.content
      · simp [hco, hc]
      · simp [hco, hc, hdry]

theorem delete_owned_record_dry_run (cfg : DNSProviderConfig) (z : Zone) (name : String)
    (record_type : RecordType) (hdry : cfg.dry_run = true) :
    delete_owned_record cfg z name record_type =
      ((list_records z (some record_type) (some name)).isEmpty ||
        check_ownership cfg z { name := name, type := record_type, content := "" }, z, []) := by
  unfold delete_owned_record
  cases hm : list_records z (some record_type) (some name) with
  | nil => simp
  | cons e rest =>
    cases hco : check_ownership cfg z { name := name, type := record_type, content := "" } with
    | false => simp [hco]
    | true => simp [hco, hdry]

/-- C3: with dry_run set, ensure_record and delete_owned_record issue no
mutating provider call and leave the zone unchanged on every input, and
they return true whenever no foreign-owned conflicting record stands in
the way (absent record, or ownership marker naming this instance) —
the only provider interaction is the read-only listing. -/
theorem C3_dry_run_purity (cfg : DNSProviderConfig) (z : Zone) (record : DNSRecord)
    (name : String) (record_type : RecordType) (hdry : cfg.dry_run = true) :
    ((ensure_record cfg z record).2.2 = [] ∧ (ensure_record cfg z record).2.1 = z) ∧
    ((delete_owned_record cfg z name record_type).2.2 = [] ∧
      (delete_owned_record cfg z name record_type).2.1 = z) ∧
    ((list_records z (some record.type) (some record.name) = [] ∨
        check_ownership cfg z record = true) →
      (ensure_record cfg z record).1 = true) ∧
    ((list_records z (some record_type) (some name) = [] ∨
        check_ownership cfg z { name := name, type := record_type, content := "" } = true) →
      (delete_owned_record cfg z name record_type).1 = true) := by
  rw [ensure_record_dry_run cfg z record hdry,
    delete_owned_record_dry_run cfg z name record_type hdry]
  refine ⟨⟨rfl, rfl⟩, ⟨rfl, rfl⟩, ?_, ?_⟩
  · rintro (h | h)
    · simp [h]
    · simp [h]
  · rintro (h | h)
    · simp [h]
    · simp [h]

/-- Witness for C3: a dry-run configuration over a zone holding one owned
record; both operations report success with no mutation. -/
theorem C3_dry_run_purity_witness :
    (({ owner_id := "o1", dry_run := true } : DNSProviderConfig).dry_run = true) ∧
    (((ensure_record { owner_id := "o1", dry_run := true } { }
        { name := "mail.ex.com", type := RecordType.A, content := "1.2.3.4" }).2.2 = [] ∧
      (ensure_record { owner_id := "o1", dry_run := true } { }
        { name := "mail.ex.com", type := RecordType.A, content := "1.2.3.4" }).2.1 = { }) ∧
    ((delete_owned_record { owner_id := "o1", dry_run := true } { } "mail.ex.com"
        RecordType.A).2.2 = [] ∧
      (delete_owned_record { owner_id := "o1", dry_run := true } { } "mail.ex.com"
        RecordType.A).2.1 = { }) ∧
    ((list_records { } (some RecordType.A) (some "mail.ex.com") = [] ∨
        check_ownership { owner_id := "o1", dry_run := true } { }
          { name := "mail.ex.com", type := RecordType.A, content := "1.2.3.4" } = true) →
      (ensure_record { owner_id := "o1", dry_run := true } { }
        { name := "mail.ex.com", type := RecordType.A, content := "1.2.3.4" }).1 = true) ∧
    ((list_records { } (some RecordType.A) (some "mail.ex.com") = [] ∨
        check_ownership { owner_id := "o1", dry_run := true } { }
          { name := "mail.ex.com", type := RecordType.A, content := "" } = true) →
      (delete_owned_record { owner_id := "o1", dry_run := true } { } "mail.ex.com"
        RecordType.A).1 = true)) :=
  ⟨rfl, C3_dry_run_purity { owner_id := "o1", dry_run := true } { }
    { name := "mail.ex.com", type := RecordType.A, content := "1.2.3.4" }
    "mail.ex.com" RecordType.A rfl⟩

/-! ## Claim C6: cleanup scope of list_owned_records -/

theorem list_owned_records_go_skip (cfg : DNSProviderConfig) (z : Zone) :
    ∀ l : List DNSRecord,
      (∀ t ∈ l, List.isPrefixOf "_mail-relay-owner.".data t.name.data = true →
        ∀ ps, parse_ownership t.content = some ps → dict_get ps "owner" ≠ some cfg.owner_id) →
      list_owned_records_go cfg z l = Except.ok [] := by
  intro l
  induction l with
  | nil => intro _; rfl
  | cons t rest ih =>
    intro h
    have hrest : list_owned_records_go cfg z rest = Except.ok [] :=
      ih (fun t' ht' => h t' (List.mem_cons_of_mem t ht'))
    unfold list_owned_records_go
    cases hpre : List.isPrefixOf "_mail-relay-owner.".data t.name.data with
    | false => simp [hrest]
    | true =>
      cases hp : parse_ownership t.content with
      | none => simp [hrest]
      | some ps =>
        have hmm : dict_get ps "owner" ≠ some cfg.owner_id :=
          h t (List.mem_cons_self t rest) hpre ps hp
        simp [hmm, hrest]

/-- C6: list_owned_records returns no record reached through a marker
whose owner field differs from this instance's owner_id: when every
ownership-named TXT record of the zone parses to a different owner (even
with matching heritage) or fails to parse, the result is empty. -/
theorem C6_list_owned_records_scope (cfg : DNSProviderConfig) (z : Zone)
    (h : ∀ t ∈ list_records z (some RecordType.TXT) none,
      List.isPrefixOf "_mail-relay-owner.".data t.name.data = true →
      ∀ ps, parse_ownership t.content = some ps → dict_get ps "owner" ≠ some cfg.owner_id) :
    list_owned_records cfg z = Except.ok [] := by
  unfold list_owned_records
  exact list_owned_records_go_skip cfg z _ h

/-- Witness for C6: a zone whose only marker has heritage mail-relay but
a different owner yields no owned records. -/
theorem C6_list_owned_records_scope_witness :
    (∀ t ∈ list_records
        { records := [{ name := "_mail-relay-owner.mail.ex.com", type := RecordType.TXT,
                        content := "heritage=mail-relay,owner=other,record-type=A",
                        record_id := some 1 },
                      { name := "mail.ex.com", type := RecordType.A, content := "1.2.3.4",
                        record_id := some 2 }], next_id := 3 }
        (some RecordType.TXT) none,
      List.isPrefixOf "_mail-relay-owner.".data t.name.data = true →
      ∀ ps, parse_ownership t.content = some ps →
        dict_get ps "owner" ≠ some ({ owner_id := "default-mail-relay" } : DNSProviderConfig).owner_id) ∧
    list_owned_records { owner_id := "default-mail-relay" }
      { records := [{ name := "_mail-relay-owner.mail.ex.com", type := RecordType.TXT,
                      content := "heritage=mail-relay,owner=other,record-type=A",
                      record_id := some 1 },
                    { name := "mail.ex.com", type := RecordType.A, content := "1.2.3.4",
                      record_id := some 2 }], next_id := 3 } = Except.ok [] :=
  ⟨by decide,
   C6_list_owned_records_scope { owner_id := "default-mail-relay" }
     { records := [{ name := "_mail-relay-owner.mail.ex.com", type := RecordType.TXT,
                     content := "heritage=mail-relay,owner=other,record-type=A",
                     record_id := some 1 },
                   { name := "mail.ex.com", type := RecordType.A, content := "1.2.3.4",
                     record_id := some 2 }], next_id := 3 }
     (by decide)⟩

/-! ## Claim C10: the ownership check ignores the marker's record-type -/

/-- C10: _check_ownership depends only on the record's name; any TXT
record at the ownership name whose content parses with matching heritage
and owner authorizes every record type at that name, regardless of the
marker's record-type field; consequently both the update path of
ensure_record and the delete path of delete_owned_record proceed for any
record type once such a marker exists. -/
theorem C10_check_ownership_ignores_record_type (cfg : DNSProviderConfig) (z : Zone) :
    (∀ r r' : DNSRecord, r.name = r'.name →
      check_ownership cfg z r = check_ownership cfg z r') ∧
    (∀ (nm : String) (t : DNSRecord),
      t ∈ list_records z (some RecordType.TXT) (some ("_mail-relay-owner." ++ nm)) →
      is_owned_by_us cfg t.content = true →
      ∀ (rt : RecordType) (content : String),
        check_ownership cfg z { name := nm, type := rt, content := content } = true) ∧
    (∀ (nm : String) (rt : RecordType) (e : DNSRecord) (rest : List DNSRecord),
      cfg.dry_run = false →
      list_records z (some rt) (some nm) = e :: rest →
      check_ownership cfg z { name := nm, type := rt, content := "" } = true →
      (delete_owned_record cfg z nm rt).2.2 =
        MutCall.delete e.record_id ::
          (delete_ownership cfg (delete_record z e.record_id) nm rt).2.2) ∧
    (∀ (record e : DNSRecord) (rest : List DNSRecord),
      cfg.dry_run = false →
      list_records z (some record.type) (some record.name) = e :: rest →
      check_ownership cfg z record = true →
      ¬(e.content = record.content) →
      (ensure_record cfg z record).2.2 =
        [MutCall.update { record with record_id := e.record_id }]) := by
  refine ⟨?_, ?_, ?_, ?_⟩
  · intro r r' hname
    unfold check_ownership DNSRecord.ownership_record_name
    rw [hname]
  · intro nm t ht howned rt content
    unfold check_ownership
    exact List.any_eq_true.mpr ⟨t, ht, howned⟩
  · intro nm rt e rest hdry hm hco
    unfold delete_owned_record
    rw [hm]
    simp [hco, hdry]
  · intro record e rest hdry hm hco hc
    unfold ensure_record
    rw [hm]
    simp [hco, hc, hdry]

/-- Witness for C10: a marker recorded for record-type A authorizes both
the check and the deletion of the MX record at the same name. -/
theorem C10_check_ownership_ignores_record_type_witness :
    check_ownership { owner_id := "o1" }
      { records := [{ name := "_mail-relay-owner.mail.ex.com", type := RecordType.TXT,
                      content := "heritage=mail-relay,owner=o1,record-type=A",
                      record_id := some 1 },
                    { name := "mail.ex.com", type := RecordType.MX, content := "old.ex.com",
                      record_id := some 2 }], next_id := 3 }
      { name := "mail.ex.com", type := RecordType.MX, content := "new.ex.com" } = true ∧
    (delete_owned_record { owner_id := "o1" }
      { records := [{ name := "_mail-relay-owner.mail.ex.com", type := RecordType.TXT,
                      content := "heritage=mail-relay,owner=o1,record-type=A",
                      record_id := some 1 },
                    { name := "mail.ex.com", type := RecordType.MX, content := "old.ex.com",
                      record_id := some 2 }], next_id := 3 }
      "mail.ex.com" RecordType.MX).2.2 =
      MutCall.delete (some 2) ::
        (delete_ownership { owner_id := "o1" }
          (delete_record
            { records := [{ name := "_mail-relay-owner.mail.ex.com", type := RecordType.TXT,
                            content := "heritage=mail-relay,owner=o1,record-type=A",
                            record_id := some 1 },
                          { name := "mail.ex.com", type := RecordType.MX,
                            content := "old.ex.com", record_id := some 2 }], next_id := 3 }
            (some 2))
          "mail.ex.com" RecordType.MX).2.2 :=
  ⟨(C10_check_ownership_ignores_record_type { owner_id := "o1" }
      { records := [{ name := "_mail-relay-owner.mail.ex.com", type := RecordType.TXT,
                      content := "heritage=mail-relay,owner=o1,record-type=A",
                      record_id := some 1 },
                    { name := "mail.ex.com", type := RecordType.MX, content := "old.ex.com",
                      record_id := some 2 }], next_id := 3 }).2.1
    "mail.ex.com"
    { name := "_mail-relay-owner.mail.ex.com", type := RecordType.TXT,
      content := "heritage=mail-relay,owner=o1,record-type=A", record_id := some 1 }
    (by decide) (by decide) RecordType.MX "new.ex.com",
   (C10_check_ownership_ignores_record_type { owner_id := "o1" }
      { records := [{ name := "_mail-relay-owner.mail.ex.com", type := RecordType.TXT,
                      content := "heritage=mail-relay,owner=o1,record-type=A",
                      record_id := some 1 },
                    { name := "mail.ex.com", type := RecordType.MX, content := "old.ex.com",
                      record_id := some 2 }], next_id := 3 }).2.2.1
    "mail.ex.com" RecordType.MX
    { name := "mail.ex.com", type := RecordType.MX, content := "old.ex.com",
      record_id := some 2 }
    [] rfl (by decide) (by decide)⟩


/-! ## Claim C2: idempotence of ensure_record -/

theorem marker_name_ne (s : String) : ("_mail-relay-owner." ++ s) ≠ s := by
  intro h
  have hlen := congrArg String.length h
  rw [String.length_append] at hlen
  have h18 : ("_mail-relay-owner." : String).length = 18 := by decide
  omega

theorem ensure_record_noop (cfg : DNSProviderConfig) (z : Zone) (record e : DNSRecord)
    (rest : List DNSRecord)
    (hm : list_records z (some record.type) (some record.name) = e :: rest)
    (hco : check_ownership cfg z record = true)
    (hc : e.content = record.content) :
    ensure_record cfg z record = (true, z, []) := by
  unfold ensure_record
  rw [hm]
  simp [hco, hc]

/-- C2 (amended): with dry_run off, ensure_record followed by a second
call with the same unchanged record issues exactly one create or update
of the desired record itself, and the second call returns true with no
mutating provider call and an unchanged zone. Create path: from a zone
with neither the record nor a TXT record at its ownership name (and an
owner_id whose marker content parses back to this instance), the first
call issues the record create plus one create for its ownership marker.
Update path: from a zone holding an owned record with different content
(under the provider invariant that distinct records carry distinct
provider ids), the first call issues exactly one update and no other
mutating call. -/
theorem filter_map_pres {α : Type} (f : α → α) (p : α → Bool) :
    ∀ l : List α, (∀ x ∈ l, p (f x) = p x) →
      (l.map f).filter p = (l.filter p).map f := by
  intro l
  induction l with
  | nil => intro _; rfl
  | cons a t ih =>
    intro h
    have ha := h a (List.mem_cons_self a t)
    have ht := ih (fun x hx => h x (List.mem_cons_of_mem a hx))
    simp only [List.map_cons, List.filter_cons, ha]
    cases hpa : p a with
    | false => simp [ht]
    | true => simp [ht]

theorem C2_ensure_record_idempotent (cfg : DNSProviderConfig) (z : Zone) (record : DNSRecord)
    (hdry : cfg.dry_run = false) :
    ((list_records z (some record.type) (some record.name) = [] →
      list_records z (some RecordType.TXT) (some record.ownership_record_name) = [] →
      is_owned_by_us cfg (ownership_content cfg record.type) = true →
      ensure_record cfg z record =
        (true,
          { records := z.records ++
              [{ record with record_id := some z.next_id },
               { name := record.ownership_record_name, type := RecordType.TXT,
                 content := ownership_content cfg record.type, ttl := record.ttl,
                 record_id := some (z.next_id + 1) }],
            next_id := z.next_id + 2 },
          [MutCall.create { record with record_id := some z.next_id },
           MutCall.create
             { name := record.ownership_record_name, type := RecordType.TXT,
               content := ownership_content cfg record.type, ttl := record.ttl,
               record_id := some (z.next_id + 1) }]) ∧
      ensure_record cfg (ensure_record cfg z record).2.1 record =
        (true, (ensure_record cfg z record).2.1, [])) ∧
    (∀ (e : DNSRecord) (rest : List DNSRecord),
      list_records z (some record.type) (some record.name) = e :: rest →
      check_ownership cfg z record = true →
      ¬(e.content = record.content) →
      (∀ x ∈ z.records, x.record_id = e.record_id → x = e) →
      ensure_record cfg z record =
        (true, update_record z { record with record_id := e.record_id },
          [MutCall.update { record with record_id := e.record_id }]) ∧
      ensure_record cfg (ensure_record cfg z record).2.1 record =
        (true, (ensure_record cfg z record).2.1, []))) := by
  have hnm : record.ownership_record_name = "_mail-relay-owner." ++ record.name := rfl
  have hne : record.ownership_record_name ≠ record.name := by
    rw [hnm]; exact marker_name_ne record.name
  constructor
  · intro habs hmark hround
    have habs' : z.records.filter
        (fun r => record_matches r (some record.type) (some record.name)) = [] := habs
    have hmark' : z.records.filter
        (fun r => record_matches r (some RecordType.TXT) (some record.ownership_record_name)) = [] :=
      hmark
    set r1 : DNSRecord := { record with record_id := some z.next_id } with hr1
    set o1 : DNSRecord :=
      { name := record.ownership_record_name, type := RecordType.TXT,
        content := ownership_content cfg record.type, ttl := record.ttl,
        record_id := some (z.next_id + 1) } with ho1
    have hne2 : ¬(record.name = "_mail-relay-owner." ++ record.name) := by
      intro h
      exact marker_name_ne record.name h.symm
    have hmark2 : List.filter
        (fun r => decide (r.type = RecordType.TXT) &&
          decide (r.name = "_mail-relay-owner." ++ record.name)) z.records = [] := by
      have := hmark'
      simp only [record_matches, DNSRecord.ownership_record_name] at this
      exact this
    have step1 : ensure_record cfg z record =
        (true, { records := z.records ++ [r1, o1], next_id := z.next_id + 2 },
          [MutCall.create r1, MutCall.create o1]) := by
      unfold ensure_record
      rw [habs]
      simp only [hdry, Bool.false_eq_true, if_false]
      unfold create_record set_ownership
      simp only [list_records, record_matches, DNSRecord.ownership_record_name,
        List.filter_append, List.filter_cons, List.filter_nil]
      simp [hmark2, hne2, create_record, DNSRecord.ownership_record_name, List.append_assoc,
        hr1, ho1]
    refine ⟨step1, ?_⟩
    rw [step1]
    have hm2 : list_records { records := z.records ++ [r1, o1], next_id := z.next_id + 2 }
        (some record.type) (some record.name) = [r1] := by
      simp only [list_records, List.filter_append, habs']
      simp [record_matches, hne, Ne.symm hne]
    have hco2 : check_ownership cfg
        { records := z.records ++ [r1, o1], next_id := z.next_id + 2 } record = true := by
      unfold check_ownership
      simp only [list_records, List.filter_append, hmark']
      simp [record_matches, hne, hround]
    exact ensure_record_noop cfg _ record r1 [] hm2 hco2 rfl
  · intro e rest hm hco hcontent huniq
    set r1 : DNSRecord := { record with record_id := e.record_id } with hr1
    have hm' : z.records.filter
        (fun r => record_matches r (some record.type) (some record.name)) = e :: rest := hm
    have he_mem : e ∈ z.records := by
      have : e ∈ z.records.filter (fun r => record_matches r (some record.type) (some record.name)) := by
        rw [hm']
        exact List.mem_cons_self e rest
      exact (List.mem_filter.mp this).1
    have hpe : record_matches e (some record.type) (some record.name) = true := by
      have : e ∈ z.records.filter (fun r => record_matches r (some record.type) (some record.name)) := by
        rw [hm']
        exact List.mem_cons_self e rest
      exact (List.mem_filter.mp this).2
    have hep_name : e.name = record.name := by
      simp only [record_matches, Bool.and_eq_true, decide_eq_true_eq] at hpe
      exact hpe.2
    have hr1_id : r1.record_id = e.record_id := by rw [hr1]
    have step1 : ensure_record cfg z record =
        (true, update_record z r1, [MutCall.update r1]) := by
      unfold ensure_record
      rw [hm]
      simp [hco, hcontent, hdry, hr1]
    refine ⟨step1, ?_⟩
    rw [step1]
    have hpres_p : ∀ x ∈ z.records,
        record_matches (if x.record_id = r1.record_id then r1 else x)
            (some record.type) (some record.name) =
          record_matches x (some record.type) (some record.name) := by
      intro x hx
      by_cases hid : x.record_id = r1.record_id
      · have hxe : x = e := huniq x hx (by rw [← hr1_id]; exact hid)
        rw [if_pos hid, hxe, hpe]
        simp [record_matches, hr1]
      · rw [if_neg hid]
    have hm2 : list_records (update_record z r1) (some record.type) (some record.name) =
        r1 :: rest.map (fun x => if x.record_id = r1.record_id then r1 else x) := by
      show (z.records.map (fun x => if x.record_id = r1.record_id then r1 else x)).filter
          (fun r => record_matches r (some record.type) (some record.name)) = _
      rw [filter_map_pres _ _ z.records hpres_p, hm']
      simp [hr1_id]
    have hpres_q : ∀ x ∈ z.records,
        record_matches (if x.record_id = r1.record_id then r1 else x)
            (some RecordType.TXT) (some record.ownership_record_name) =
          record_matches x (some RecordType.TXT) (some record.ownership_record_name) := by
      intro x hx
      by_cases hid : x.record_id = r1.record_id
      · have hxe : x = e := huniq x hx (by rw [← hr1_id]; exact hid)
        rw [if_pos hid, hxe]
        simp [record_matches, hr1, hne, Ne.symm hne, hep_name]
      · rw [if_neg hid]
    have hco2 : check_ownership cfg (update_record z r1) record = true := by
      unfold check_ownership at hco ⊢
      show ((z.records.map (fun x => if x.record_id = r1.record_id then r1 else x)).filter
          (fun r => record_matches r (some RecordType.TXT)
            (some record.ownership_record_name))).any
          (fun txt_record => is_owned_by_us cfg txt_record.content) = true
      rw [filter_map_pres _ _ z.records hpres_q]
      rcases List.any_eq_true.mp hco with ⟨t, ht, howned⟩
      apply List.any_eq_true.mpr
      have hft : (if t.record_id = r1.record_id then r1 else t) = t := by
        by_cases hid : t.record_id = r1.record_id
        · exfalso
          have hte : t = e := huniq t (List.mem_filter.mp ht).1 (by rw [← hr1_id]; exact hid)
          have hqt := (List.mem_filter.mp ht).2
          rw [hte] at hqt
          simp only [record_matches, Bool.and_eq_true, decide_eq_true_eq] at hqt
          exact hne (hep_name ▸ hqt.2.symm)
        · rw [if_neg hid]
      exact ⟨t, List.mem_map.mpr ⟨t, ht, hft⟩, howned⟩
    exact ensure_record_noop cfg _ record r1
      (rest.map (fun x => if x.record_id = r1.record_id then r1 else x)) hm2 hco2 (by rw [hr1])

/-- Counterexample to C2 as stated: on a fresh zone, the two successive
ensure_record calls together issue two create calls to the provider (one
for the record, one for the ownership marker), not exactly one. -/
theorem C2_ensure_record_idempotent_counterexample :
    ((ensure_record { owner_id := "o1" } { }
        { name := "mail.ex.com", type := RecordType.A, content := "1.2.3.4" }).2.2 ++
      (ensure_record { owner_id := "o1" }
        (ensure_record { owner_id := "o1" } { }
          { name := "mail.ex.com", type := RecordType.A, content := "1.2.3.4" }).2.1
        { name := "mail.ex.com", type := RecordType.A, content := "1.2.3.4" }).2.2).length = 2 ∧
    ¬(((ensure_record { owner_id := "o1" } { }
        { name := "mail.ex.com", type := RecordType.A, content := "1.2.3.4" }).2.2 ++
      (ensure_record { owner_id := "o1" }
        (ensure_record { owner_id := "o1" } { }
          { name := "mail.ex.com", type := RecordType.A, content := "1.2.3.4" }).2.1
        { name := "mail.ex.com", type := RecordType.A, content := "1.2.3.4" }).2.2).length = 1) := by
  constructor
  · decide
  · decide

/-- Witness for C2, exercising both paths: a fresh zone (create path:
record create plus marker create, then a no-op second call) and a zone
holding an owned stale record (update path: exactly one update, then a
no-op second call). -/
theorem C2_ensure_record_idempotent_witness :
    ({ owner_id := "o1" } : DNSProviderConfig).dry_run = false ∧
    (ensure_record { owner_id := "o1" } { }
        { name := "mail.ex.com", type := RecordType.A, content := "1.2.3.4" } =
      (true,
        { records := [{ name := "mail.ex.com", type := RecordType.A, content := "1.2.3.4",
                        record_id := some 0 },
                      { name := "_mail-relay-owner.mail.ex.com", type := RecordType.TXT,
                        content := "heritage=mail-relay,owner=o1,record-type=A",
                        record_id := some 1 }],
          next_id := 2 },
        [MutCall.create
           { name := "mail.ex.com", type := RecordType.A, content := "1.2.3.4",
             record_id := some 0 },
         MutCall.create
           { name := "_mail-relay-owner.mail.ex.com", type := RecordType.TXT,
             content := "heritage=mail-relay,owner=o1,record-type=A",
             record_id := some 1 }]) ∧
      ensure_record { owner_id := "o1" }
        (ensure_record { owner_id := "o1" } { }
          { name := "mail.ex.com", type := RecordType.A, content := "1.2.3.4" }).2.1
        { name := "mail.ex.com", type := RecordType.A, content := "1.2.3.4" } =
      (true,
        (ensure_record { owner_id := "o1" } { }
          { name := "mail.ex.com", type := RecordType.A, content := "1.2.3.4" }).2.1, [])) ∧
    (ensure_record { owner_id := "o1" }
        { records := [{ name := "_mail-relay-owner.mail.ex.com", type := RecordType.TXT,
                        content := "heritage=mail-relay,owner=o1,record-type=A",
                        record_id := some 1 },
                      { name := "mail.ex.com", type := RecordType.A, content := "9.9.9.9",
                        record_id := some 2 }], next_id := 3 }
        { name := "mail.ex.com", type := RecordType.A, content := "1.2.3.4" } =
      (true,
        update_record
          { records := [{ name := "_mail-relay-owner.mail.ex.com", type := RecordType.TXT,
                          content := "heritage=mail-relay,owner=o1,record-type=A",
                          record_id := some 1 },
                        { name := "mail.ex.com", type := RecordType.A, content := "9.9.9.9",
                          record_id := some 2 }], next_id := 3 }
          { name := "mail.ex.com", type := RecordType.A, content := "1.2.3.4",
            record_id := some 2 },
        [MutCall.update
           { name := "mail.ex.com", type := RecordType.A, content := "1.2.3.4",
             record_id := some 2 }]) ∧
      ensure_record { owner_id := "o1" }
        (ensure_record { owner_id := "o1" }
          { records := [{ name := "_mail-relay-owner.mail.ex.com", type := RecordType.TXT,
                          content := "heritage=mail-relay,owner=o1,record-type=A",
                          record_id := some 1 },
                        { name := "mail.ex.com", type := RecordType.A, content := "9.9.9.9",
                          record_id := some 2 }], next_id := 3 }
          { name := "mail.ex.com", type := RecordType.A, content := "1.2.3.4" }).2.1
        { name := "mail.ex.com", type := RecordType.A, content := "1.2.3.4" } =
      (true,
        (ensure_record { owner_id := "o1" }
          { records := [{ name := "_mail-relay-owner.mail.ex.com", type := RecordType.TXT,
                          content := "heritage=mail-relay,owner=o1,record-type=A",
                          record_id := some 1 },
                        { name := "mail.ex.com", type := RecordType.A, content := "9.9.9.9",
                          record_id := some 2 }], next_id := 3 }
          { name := "mail.ex.com", type := RecordType.A, content := "1.2.3.4" }).2.1, [])) :=
  ⟨rfl,
   (C2_ensure_record_idempotent { owner_id := "o1" } { }
     { name := "mail.ex.com", type := RecordType.A, content := "1.2.3.4" } rfl).1
     rfl rfl (by decide),
   (C2_ensure_record_idempotent { owner_id := "o1" }
     { records := [{ name := "_mail-relay-owner.mail.ex.com", type := RecordType.TXT,
                     content := "heritage=mail-relay,owner=o1,record-type=A",
                     record_id := some 1 },
                   { name := "mail.ex.com", type := RecordType.A, content := "9.9.9.9",
                     record_id := some 2 }], next_id := 3 }
     { name := "mail.ex.com", type := RecordType.A, content := "1.2.3.4" } rfl).2
     { name := "mail.ex.com", type := RecordType.A, content := "9.9.9.9", record_id := some 2 }
     [] (by decide) (by decide) (by decide) (by decide)⟩

/-! ## Claims C4 and C7: the drift watch loop tick -/

/-- C4: on a reconciling tick, a successful init_or_update run persists
exactly the freshly detected state, and the restart marker is written if
and only if the detected incoming IP differs from the persisted one; a
failed run persists nothing and writes no marker. -/
theorem C4_restart_gating (saved : SavedState) (inp : TickInput) (ip : String)
    (hip : inp.current_incoming = some ip) (hne : ip ≠ "")
    (hrec : (watcher_tick saved inp).update_invoked = true) :
    (inp.update_result = true →
      (watcher_tick saved inp).persisted =
        some { incoming_ip := ip, outbound_ip := inp.current_outbound.getD "",
               all_ips := inp.current_all_ips } ∧
      (watcher_tick saved inp).kill_marker = !(decide (ip = saved.incoming_ip))) ∧
    (inp.update_result = false →
      (watcher_tick saved inp).persisted = none ∧
      (watcher_tick saved inp).kill_marker = false) := by
  have hpt : py_truthy inp.current_incoming = true := by
    rw [hip]; simp [py_truthy, hne]
  unfold watcher_tick at hrec ⊢
  rw [hpt, hip] at hrec ⊢
  simp only [Bool.not_true, Bool.false_eq_true, if_false, Option.getD_some] at hrec ⊢
  cases hu : inp.update_result <;>
    cases h1 : decide (ip = saved.incoming_ip) <;>
    cases h2 : py_truthy inp.current_outbound &&
      !(decide (inp.current_outbound.getD "" = saved.outbound_ip)) <;>
    cases h3 : set_eq inp.current_all_ips
      (if saved.all_ips.isEmpty then [saved.incoming_ip] else saved.all_ips) <;>
    cases h4 : inp.check_result.1 <;>
    simp_all

/-- C7: on a polling tick with a detected incoming IP, needs_update is
the disjunction of the incoming-IP change, the non-empty outbound-IP
change and the all-IPs set change, together with the result of the
read-only record check, which is consulted exactly when none of the three
IP conditions holds; reconciliation runs exactly when needs_update holds. -/
theorem C7_drift_decision (saved : SavedState) (inp : TickInput) (ip : String)
    (hip : inp.current_incoming = some ip) (hne : ip ≠ "") :
    (watcher_tick saved inp).needs_update =
      (!(decide (ip = saved.incoming_ip)) ||
        (py_truthy inp.current_outbound &&
          !(decide (inp.current_outbound.getD "" = saved.outbound_ip))) ||
        !(set_eq inp.current_all_ips
          (if saved.all_ips.isEmpty then [saved.incoming_ip] else saved.all_ips)) ||
        (!(!(decide (ip = saved.incoming_ip)) ||
            (py_truthy inp.current_outbound &&
              !(decide (inp.current_outbound.getD "" = saved.outbound_ip))) ||
            !(set_eq inp.current_all_ips
              (if saved.all_ips.isEmpty then [saved.incoming_ip] else saved.all_ips))) &&
          !(inp.check_result.1))) ∧
    (watcher_tick saved inp).check_invoked =
      !(!(decide (ip = saved.incoming_ip)) ||
        (py_truthy inp.current_outbound &&
          !(decide (inp.current_outbound.getD "" = saved.outbound_ip))) ||
        !(set_eq inp.current_all_ips
          (if saved.all_ips.isEmpty then [saved.incoming_ip] else saved.all_ips))) ∧
    (watcher_tick saved inp).update_invoked = (watcher_tick saved inp).needs_update := by
  have hpt : py_truthy inp.current_incoming = true := by
    rw [hip]; simp [py_truthy, hne]
  unfold watcher_tick
  rw [hpt, hip]
  simp only [Bool.not_true, Bool.false_eq_true, if_false, Option.getD_some]
  cases hu : inp.update_result <;>
    cases h1 : decide (ip = saved.incoming_ip) <;>
    cases h2 : py_truthy inp.current_outbound &&
      !(decide (inp.current_outbound.getD "" = saved.outbound_ip)) <;>
    cases h3 : set_eq inp.current_all_ips
      (if saved.all_ips.isEmpty then [saved.incoming_ip] else saved.all_ips) <;>
    cases h4 : inp.check_result.1 <;>
    simp_all

/-- Witness for C4: an incoming-IP change with a successful update
persists the new state and writes the restart marker. -/
theorem C4_restart_gating_witness :
    ({ current_incoming := some "5.5.5.5", current_outbound := some "2.2.2.2",
       current_all_ips := ["5.5.5.5"], check_result := (true, []),
       update_result := true } : TickInput).current_incoming = some "5.5.5.5" ∧
    ("5.5.5.5" : String) ≠ "" ∧
    (watcher_tick { incoming_ip := "1.1.1.1", outbound_ip := "2.2.2.2", all_ips := ["1.1.1.1"] }
      { current_incoming := some "5.5.5.5", current_outbound := some "2.2.2.2",
        current_all_ips := ["5.5.5.5"], check_result := (true, []),
        update_result := true }).update_invoked = true ∧
    ((({ current_incoming := some "5.5.5.5", current_outbound := some "2.2.2.2",
         current_all_ips := ["5.5.5.5"], check_result := (true, []),
         update_result := true } : TickInput).update_result = true →
      (watcher_tick { incoming_ip := "1.1.1.1", outbound_ip := "2.2.2.2", all_ips := ["1.1.1.1"] }
        { current_incoming := some "5.5.5.5", current_outbound := some "2.2.2.2",
          current_all_ips := ["5.5.5.5"], check_result := (true, []),
          update_result := true }).persisted =
        some { incoming_ip := "5.5.5.5", outbound_ip := "2.2.2.2", all_ips := ["5.5.5.5"] } ∧
      (watcher_tick { incoming_ip := "1.1.1.1", outbound_ip := "2.2.2.2", all_ips := ["1.1.1.1"] }
        { current_incoming := some "5.5.5.5", current_outbound := some "2.2.2.2",
          current_all_ips := ["5.5.5.5"], check_result := (true, []),
          update_result := true }).kill_marker = true) ∧
    (({ current_incoming := some "5.5.5.5", current_outbound := some "2.2.2.2",
        current_all_ips := ["5.5.5.5"], check_result := (true, []),
        update_result := true } : TickInput).update_result = false →
      (watcher_tick { incoming_ip := "1.1.1.1", outbound_ip := "2.2.2.2", all_ips := ["1.1.1.1"] }
        { current_incoming := some "5.5.5.5", current_outbound := some "2.2.2.2",
          current_all_ips := ["5.5.5.5"], check_result := (true, []),
          update_result := true }).persisted = none ∧
      (watcher_tick { incoming_ip := "1.1.1.1", outbound_ip := "2.2.2.2", all_ips := ["1.1.1.1"] }
        { current_incoming := some "5.5.5.5", current_outbound := some "2.2.2.2",
          current_all_ips := ["5.5.5.5"], check_result := (true, []),
          update_result := true }).kill_marker = false)) :=
  ⟨rfl, by decide, by decide,
   C4_restart_gating { incoming_ip := "1.1.1.1", outbound_ip := "2.2.2.2", all_ips := ["1.1.1.1"] }
     { current_incoming := some "5.5.5.5", current_outbound := some "2.2.2.2",
       current_all_ips := ["5.5.5.5"], check_result := (true, []), update_result := true }
     "5.5.5.5" rfl (by decide) (by decide)⟩

/-- Witness for C7: with unchanged IPs and a clean record check, no
update is needed and the check is invoked. -/
theorem C7_drift_decision_witness :
    ({ current_incoming := some "1.1.1.1", current_outbound := some "2.2.2.2",
       current_all_ips := ["1.1.1.1"], check_result := (true, []),
       update_result := true } : TickInput).current_incoming = some "1.1.1.1" ∧
    ("1.1.1.1" : String) ≠ "" ∧
    ((watcher_tick { incoming_ip := "1.1.1.1", outbound_ip := "2.2.2.2", all_ips := ["1.1.1.1"] }
        { current_incoming := some "1.1.1.1", current_outbound := some "2.2.2.2",
          current_all_ips := ["1.1.1.1"], check_result := (true, []),
          update_result := true }).needs_update = false ∧
      (watcher_tick { incoming_ip := "1.1.1.1", outbound_ip := "2.2.2.2", all_ips := ["1.1.1.1"] }
        { current_incoming := some "1.1.1.1", current_outbound := some "2.2.2.2",
          current_all_ips := ["1.1.1.1"], check_result := (true, []),
          update_result := true }).check_invoked = true ∧
      (watcher_tick { incoming_ip := "1.1.1.1", outbound_ip := "2.2.2.2", all_ips := ["1.1.1.1"] }
        { current_incoming := some "1.1.1.1", current_outbound := some "2.2.2.2",
          current_all_ips := ["1.1.1.1"], check_result := (true, []),
          update_result := true }).update_invoked =
        (watcher_tick { incoming_ip := "1.1.1.1", outbound_ip := "2.2.2.2", all_ips := ["1.1.1.1"] }
          { current_incoming := some "1.1.1.1", current_outbound := some "2.2.2.2",
            current_all_ips := ["1.1.1.1"], check_result := (true, []),
            update_result := true }).needs_update) :=
  ⟨rfl, by decide,
   C7_drift_decision { incoming_ip := "1.1.1.1", outbound_ip := "2.2.2.2", all_ips := ["1.1.1.1"] }
     { current_incoming := some "1.1.1.1", current_outbound := some "2.2.2.2",
       current_all_ips := ["1.1.1.1"], check_result := (true, []), update_result := true }
     "1.1.1.1" rfl (by decide)⟩

/-! ## Claim C8: aggregation and fault tolerance of init_or_update -/

theorem domain_step_ok_inv (cfg : MailConfig) (env : ManagerEnv) (acc : Bool × List Attempt)
    (dcfg : DomainCfg) (hinv : acc.1 = (acc.2.map Attempt.ok).all (fun b => b)) :
    (domain_step cfg env acc dcfg).1 =
      ((domain_step cfg env acc dcfg).2.map Attempt.ok).all (fun b => b) := by
  unfold domain_step
  cases hz : env.get_zone_id dcfg.name with
  | none => simp [hz]
  | some zone_id =>
    simp only [hz]
    by_cases hmx : cfg.create_mx <;> by_cases hspf : cfg.create_spf <;>
      by_cases hdkim : cfg.create_dkim <;> by_cases hdmarc : cfg.create_dmarc <;>
      simp [hmx, hspf, hdkim, hdmarc, hinv, Bool.and_assoc]

theorem domain_step_labels (cfg : MailConfig) (env : ManagerEnv) (acc : Bool × List Attempt)
    (dcfg : DomainCfg) :
    (domain_step cfg env acc dcfg).2.map Attempt.label =
      acc.2.map Attempt.label ++ planned_domain_labels cfg env dcfg := by
  unfold domain_step planned_domain_labels
  cases hz : env.get_zone_id dcfg.name with
  | none => simp [hz]
  | some zone_id =>
    simp only [hz]
    by_cases hmx : cfg.create_mx <;> by_cases hspf : cfg.create_spf <;>
      by_cases hdkim : cfg.create_dkim <;> by_cases hdmarc : cfg.create_dmarc <;>
      simp [hmx, hspf, hdkim, hdmarc]

theorem foldl_domain_step_ok_inv (cfg : MailConfig) (env : ManagerEnv) :
    ∀ (ds : List DomainCfg) (acc : Bool × List Attempt),
      acc.1 = (acc.2.map Attempt.ok).all (fun b => b) →
      (ds.foldl (domain_step cfg env) acc).1 =
        (((ds.foldl (domain_step cfg env) acc).2).map Attempt.ok).all (fun b => b) := by
  intro ds
  induction ds with
  | nil => intro acc hinv; exact hinv
  | cons d rest ih =>
    intro acc hinv
    rw [List.foldl_cons]
    exact ih _ (domain_step_ok_inv cfg env acc d hinv)

theorem foldl_domain_step_labels (cfg : MailConfig) (env : ManagerEnv) :
    ∀ (ds : List DomainCfg) (acc : Bool × List Attempt),
      (ds.foldl (domain_step cfg env) acc).2.map Attempt.label =
        acc.2.map Attempt.label ++ ds.flatMap (planned_domain_labels cfg env) := by
  intro ds
  induction ds with
  | nil => intro acc; simp
  | cons d rest ih =>
    intro acc
    rw [List.foldl_cons, ih, domain_step_labels, List.flatMap_cons, List.append_assoc]

/-- C8: init_or_update returns failure with no attempts when the incoming
IP cannot be determined; otherwise its overall result is the conjunction
of the outcomes of all attempted records, and the attempted records are
exactly the applicable ones computed from configuration and environment —
independent of any per-record outcome, so one failing record or zone
lookup never prevents the remaining attempts. -/
theorem C8_init_or_update_aggregation (cfg : MailConfig) (ptrcfg : PTRConfig) (env : ManagerEnv) :
    (py_truthy env.incoming_ip = false → init_or_update cfg ptrcfg env = (false, [])) ∧
    (py_truthy env.incoming_ip = true →
      (init_or_update cfg ptrcfg env).1 =
        ((init_or_update cfg ptrcfg env).2.map Attempt.ok).all (fun b => b)) ∧
    (init_or_update cfg ptrcfg env).2.map Attempt.label = planned_labels cfg ptrcfg env := by
  refine ⟨?_, ?_, ?_⟩
  · intro h
    unfold init_or_update
    rw [h]
    simp
  · intro h
    unfold init_or_update
    rw [h]
    simp only [Bool.not_true, Bool.false_eq_true, if_false]
    have hbase : ∀ acc1 : Bool × List Attempt,
        acc1.1 = (acc1.2.map Attempt.ok).all (fun b => b) →
        (if ptrcfg.enabled then
            let ptr_ip := if py_truthy env.outbound_ip then env.outbound_ip.getD ""
              else env.incoming_ip.getD ""
            if ptr_ip ≠ "" then
              let r := ensure_ptr_record cfg ptrcfg env ptr_ip
              (acc1.1 && r, acc1.2 ++ [{ label := "PTR:" ++ ptr_ip, ok := r }])
            else acc1
          else acc1).1 =
          ((if ptrcfg.enabled then
              let ptr_ip := if py_truthy env.outbound_ip then env.outbound_ip.getD ""
                else env.incoming_ip.getD ""
              if ptr_ip ≠ "" then
                let r := ensure_ptr_record cfg ptrcfg env ptr_ip
                (acc1.1 && r, acc1.2 ++ [{ label := "PTR:" ++ ptr_ip, ok := r }])
              else acc1
            else acc1).2.map Attempt.ok).all (fun b => b) := by
      intro acc1 hinv
      by_cases hptr : ptrcfg.enabled
      · simp only [hptr, if_true]
        by_cases hip : (if py_truthy env.outbound_ip then env.outbound_ip.getD ""
            else env.incoming_ip.getD "") ≠ ""
        · simp [hip, hinv, Bool.and_assoc]
        · simp [hip, hinv]
      · simp [hptr, hinv]
    apply hbase
    apply foldl_domain_step_ok_inv
    by_cases ha : cfg.create_a <;> simp [ha]
  · unfold init_or_update planned_labels
    by_cases h : py_truthy env.incoming_ip
    · by_cases hptr : ptrcfg.enabled <;>
        by_cases ha : cfg.create_a <;>
        by_cases hip : (if py_truthy env.outbound_ip then env.outbound_ip.getD ""
          else env.incoming_ip.getD "") = "" <;>
        simp [h, hptr, ha, hip, foldl_domain_step_labels, List.append_assoc]
    · simp [h]

/-- Witness for C8 at a concrete environment with one domain whose MX
ensure fails: the overall result is the conjunction of the attempt
outcomes and the attempted labels are the planned ones. -/
theorem C8_init_or_update_aggregation_witness :
    py_truthy
      (ManagerEnv.incoming_ip
        { incoming_ip := some "1.2.3.4", outbound_ip := some "5.6.7.8",
            all_ips := ["1.2.3.4"],
            get_zone_id := fun d => if d = "ex.com" then some "z1" else none,
            ensure_record_result := fun _ r => !(decide (r.type = RecordType.MX)),
            get_dkim_record := fun _ => none,
            ptr_available := true, set_ptr_result := fun _ _ => true }) = true ∧
    (init_or_update { hostname := "mail.ex.com", domains := [{ name := "ex.com" }] } { }
      { incoming_ip := some "1.2.3.4", outbound_ip := some "5.6.7.8",
          all_ips := ["1.2.3.4"],
          get_zone_id := fun d => if d = "ex.com" then some "z1" else none,
          ensure_record_result := fun _ r => !(decide (r.type = RecordType.MX)),
          get_dkim_record := fun _ => none,
          ptr_available := true, set_ptr_result := fun _ _ => true }).1 =
      ((init_or_update { hostname := "mail.ex.com", domains := [{ name := "ex.com" }] } { }
        { incoming_ip := some "1.2.3.4", outbound_ip := some "5.6.7.8",
            all_ips := ["1.2.3.4"],
            get_zone_id := fun d => if d = "ex.com" then some "z1" else none,
            ensure_record_result := fun _ r => !(decide (r.type = RecordType.MX)),
            get_dkim_record := fun _ => none,
            ptr_available := true, set_ptr_result := fun _ _ => true }).2.map Attempt.ok).all (fun b => b) ∧
    (init_or_update { hostname := "mail.ex.com", domains := [{ name := "ex.com" }] } { }
      { incoming_ip := some "1.2.3.4", outbound_ip := some "5.6.7.8",
          all_ips := ["1.2.3.4"],
          get_zone_id := fun d => if d = "ex.com" then some "z1" else none,
          ensure_record_result := fun _ r => !(decide (r.type = RecordType.MX)),
          get_dkim_record := fun _ => none,
          ptr_available := true, set_ptr_result := fun _ _ => true }).2.map Attempt.label =
      planned_labels { hostname := "mail.ex.com", domains := [{ name := "ex.com" }] } { }
        { incoming_ip := some "1.2.3.4", outbound_ip := some "5.6.7.8",
            all_ips := ["1.2.3.4"],
            get_zone_id := fun d => if d = "ex.com" then some "z1" else none,
            ensure_record_result := fun _ r => !(decide (r.type = RecordType.MX)),
            get_dkim_record := fun _ => none,
            ptr_available := true, set_ptr_result := fun _ _ => true } :=
  ⟨rfl,
   (C8_init_or_update_aggregation { hostname := "mail.ex.com", domains := [{ name := "ex.com" }] } { }
     { incoming_ip := some "1.2.3.4", outbound_ip := some "5.6.7.8",
         all_ips := ["1.2.3.4"],
         get_zone_id := fun d => if d = "ex.com" then some "z1" else none,
         ensure_record_result := fun _ r => !(decide (r.type = RecordType.MX)),
         get_dkim_record := fun _ => none,
         ptr_available := true, set_ptr_result := fun _ _ => true }).2.1 rfl,
   (C8_init_or_update_aggregation { hostname := "mail.ex.com", domains := [{ name := "ex.com" }] } { }
     { incoming_ip := some "1.2.3.4", outbound_ip := some "5.6.7.8",
         all_ips := ["1.2.3.4"],
         get_zone_id := fun d => if d = "ex.com" then some "z1" else none,
         ensure_record_result := fun _ r => !(decide (r.type = RecordType.MX)),
         get_dkim_record := fun _ => none,
         ptr_available := true, set_ptr_result := fun _ _ => true }).2.2⟩

/-! ## Claim C9: Cloudflare paginated listing and its failure mode -/

theorem cf_list_records_go_pages (pages : List (List DNSRecord)) :
    ∀ (fuel p : Nat) (acc : List DNSRecord), 1 ≤ p → p ≤ pages.length →
      pages.length - p < fuel →
      cf_list_records_go (pages_api pages) fuel p acc = acc ++ (pages.drop (p - 1)).flatten := by
  intro fuel
  induction fuel with
  | zero => intro p acc h1 h2 h3; omega
  | succ n ih =>
    intro p acc h1 h2 h3
    have hplt : p - 1 < pages.length := by omega
    have hap : pages_api pages p =
        Except.ok { result := pages.getD (p - 1) [], total_pages := pages.length } := by
      unfold pages_api
      rw [if_pos ⟨h1, h2⟩]
    unfold cf_list_records_go
    rw [hap]
    by_cases hend : p ≥ pages.length
    · simp only [hend, if_pos]
      have hpeq : p = pages.length := by omega
      have hlast : pages.drop (p - 1) = [pages.getD (p - 1) []] := by
        rw [List.drop_eq_getElem_cons hplt, List.getD_eq_getElem pages [] hplt]
        have : p - 1 + 1 = pages.length := by omega
        rw [this, List.drop_eq_nil_of_le (le_refl pages.length)]
      rw [hlast]
      simp
    · have hend' : ¬(p ≥ pages.length) := hend
      simp only [ge_iff_le, hend', if_false]
      rw [ih (p + 1) _ (by omega) (by omega) (by omega)]
      have hstep : pages.drop (p - 1) = pages.getD (p - 1) [] :: pages.drop p := by
        rw [List.drop_eq_getElem_cons hplt, List.getD_eq_getElem pages [] hplt]
        have : p - 1 + 1 = p := by omega
        rw [this]
      rw [hstep]
      simp [List.append_assoc]

theorem cf_list_records_go_fail (pages : List (List DNSRecord)) (k : Nat)
    (hk : k ≤ pages.length) :
    ∀ (fuel p : Nat) (acc : List DNSRecord), 1 ≤ p → p ≤ k → k - p < fuel →
      cf_list_records_go (fail_api pages k) fuel p acc =
        acc ++ ((pages.take (k - 1)).drop (p - 1)).flatten := by
  intro fuel
  induction fuel with
  | zero => intro p acc h1 h2 h3; omega
  | succ n ih =>
    intro p acc h1 h2 h3
    unfold cf_list_records_go
    by_cases hpk : p < k
    · have hap : fail_api pages k p =
          Except.ok { result := pages.getD (p - 1) [], total_pages := pages.length } := by
        unfold fail_api
        rw [if_pos ⟨hpk, h1, by omega⟩]
      rw [hap]
      have hnend : ¬(p ≥ pages.length) := by omega
      simp only [ge_iff_le, hnend, if_false]
      rw [ih (p + 1) _ (by omega) (by omega) (by omega)]
      have hplt : p - 1 < (pages.take (k - 1)).length := by
        rw [List.length_take]
        omega
      have hplt2 : p - 1 < pages.length := by omega
      have hstep : (pages.take (k - 1)).drop (p - 1) =
          pages.getD (p - 1) [] :: (pages.take (k - 1)).drop p := by
        rw [List.drop_eq_getElem_cons hplt]
        have hpp : p - 1 + 1 = p := by omega
        rw [hpp, List.getElem_take, List.getD_eq_getElem pages [] hplt2]
      rw [hstep]
      simp [List.append_assoc]
    · have hpk' : p = k := by omega
      have hap : fail_api pages k p = Except.error () := by
        unfold fail_api
        rw [if_neg]
        intro hcon
        exact absurd hcon.1 (by omega)
      rw [hap]
      have hnil : (pages.take (k - 1)).drop (p - 1) = [] := by
        apply List.drop_eq_nil_of_le
        rw [List.length_take]
        omega
      rw [hnil]
      simp

/-- C9 (amended): the Cloudflare list_records loop paginates transparently
over all pages of a well-behaved API and never lets the API error escape
as an exception; an error on the very first request yields an empty list,
but an error in the middle of pagination returns the records of the pages
already fetched — a partial page set, not an empty list. -/
theorem C9_cf_list_records_pagination :
    (∀ (api : Nat → Except Unit CFResponse) (fuel : Nat), 1 ≤ fuel →
      api 1 = Except.error () → cf_list_records api fuel = []) ∧
    (∀ (pages : List (List DNSRecord)) (fuel : Nat), pages ≠ [] →
      pages.length ≤ fuel → cf_list_records (pages_api pages) fuel = pages.flatten) ∧
    (∀ (pages : List (List DNSRecord)) (k fuel : Nat), 1 ≤ k → k ≤ pages.length →
      k ≤ fuel → cf_list_records (fail_api pages k) fuel = (pages.take (k - 1)).flatten) := by
  refine ⟨?_, ?_, ?_⟩
  · intro api fuel hf h1
    unfold cf_list_records
    cases fuel with
    | zero => omega
    | succ n =>
      unfold cf_list_records_go
      rw [h1]
  · intro pages fuel hne hf
    have hlen : 1 ≤ pages.length := by
      cases pages with
      | nil => exact absurd rfl hne
      | cons a b => simp
    unfold cf_list_records
    rw [cf_list_records_go_pages pages fuel 1 [] (le_refl 1) hlen (by omega)]
    simp
  · intro pages k fuel h1k hk hf
    unfold cf_list_records
    rw [cf_list_records_go_fail pages k hk fuel 1 [] (le_refl 1) h1k (by omega)]
    simp

/-- Counterexample to C9 as stated: with three pages and the API failing
from page 2 on, the loop returns the records of page 1 — a non-empty
partial page set, where the claim requires an empty list. -/
theorem C9_cf_list_records_pagination_counterexample :
    cf_list_records
      (fail_api [[{ name := "a", type := RecordType.A, content := "1" }],
                 [{ name := "b", type := RecordType.A, content := "2" }],
                 [{ name := "c", type := RecordType.A, content := "3" }]] 2) 5 =
      [{ name := "a", type := RecordType.A, content := "1" }] ∧
    cf_list_records
      (fail_api [[{ name := "a", type := RecordType.A, content := "1" }],
                 [{ name := "b", type := RecordType.A, content := "2" }],
                 [{ name := "c", type := RecordType.A, content := "3" }]] 2) 5 ≠ [] := by
  constructor
  · decide
  · decide

/-- Witness for C9: first-page failure yields an empty list, a two-page
API is concatenated in full, and the concrete mid-pagination failure
yields exactly the first page. -/
theorem C9_cf_list_records_pagination_witness :
    cf_list_records (fun _ => Except.error ()) 3 = [] ∧
    cf_list_records
      (pages_api [[{ name := "a", type := RecordType.A, content := "1" }],
                  [{ name := "b", type := RecordType.A, content := "2" }]]) 2 =
      [{ name := "a", type := RecordType.A, content := "1" },
       { name := "b", type := RecordType.A, content := "2" }] ∧
    cf_list_records
      (fail_api [[{ name := "a", type := RecordType.A, content := "1" }],
                 [{ name := "b", type := RecordType.A, content := "2" }],
                 [{ name := "c", type := RecordType.A, content := "3" }]] 2) 5 =
      [{ name := "a", type := RecordType.A, content := "1" }] :=
  ⟨C9_cf_list_records_pagination.1 (fun _ => Except.error ()) 3 (by decide) rfl,
   C9_cf_list_records_pagination.2.1
     [[{ name := "a", type := RecordType.A, content := "1" }],
      [{ name := "b", type := RecordType.A, content := "2" }]] 2 (by decide) (by decide),
   C9_cf_list_records_pagination.2.2
     [[{ name := "a", type := RecordType.A, content := "1" }],
      [{ name := "b", type := RecordType.A, content := "2" }],
      [{ name := "c", type := RecordType.A, content := "3" }]] 2 5 (by decide) (by decide)
     (by decide)⟩

end MailRelay
